import Mathlib

/-!
Shallow embedding of the csv-connector job-and-mapping lifecycle manager
(src/imports/plugins/included/csv-connector/server/methods.js):
the Meteor methods `csvConnector/saveJobItem` and `csvConnector/removeJobItem`,
together with the parts of the persistence layer (Mongo collections `JobItems`
and `Mappings`) that those methods touch.

Modelling conventions:
- A Mongo collection is a list of documents; `insert` appends a document with a
  freshly generated string `_id` (`genId` applied to a counter), `findOne`
  is `List.find?` on `_id`, `update` with `{ $set: ... }` rewrites the first
  matching document, `remove` filters out matching documents.
- JavaScript `undefined` for a destructured-but-missing field is `Option.none`;
  the truthiness test on `shouldSaveToNewMapping` is `truthy`.
- `check(values, Object)` failing, and the TypeError raised by destructuring
  `undefined`, are distinct error constructors of `JsError`, as is
  `new Meteor.Error(error, reason)`.
- Timestamps (`new Date()`) are naturals supplied by the call context.
-/

namespace CsvConnector

/-- A field-mapping object supplied by the user: an opaque JSON-like value,
modelled as an association list of field correspondences. -/
abbrev MappingData := List (String × String)

/-- The fields destructured from `values` in `csvConnector/saveJobItem`
(methods.js lines 155-167). Every field is optional because a JavaScript
object may lack any of them (destructuring then yields `undefined`). -/
structure JobValues where
  collection : Option String
  fileSource : Option String
  hasHeader : Option Bool
  jobSubType : Option String
  jobType : Option String
  mappingByUser : Option MappingData
  mappingId : Option String
  name : Option String
  newMappingName : Option String
  saveMappingAction : Option String
  shouldSaveToNewMapping : Option Bool
deriving DecidableEq, Repr

/-- The raw argument of `csvConnector/saveJobItem`: either a JavaScript object
(whose known fields are in `JobValues`) or a non-object value, which
`check(values, Object)` rejects. -/
inductive JSArg where
  | obj (values : JobValues)
  | nonObject
deriving DecidableEq, Repr

/-- A document of the `JobItems` collection, with the exact fields inserted at
methods.js lines 170-183. -/
structure JobItem where
  _id : String
  collection : Option String
  fileSource : Option String
  hasHeader : Option Bool
  jobSubType : Option String
  jobType : Option String
  mapping : Option MappingData
  mappingId : Option String
  name : Option String
  shopId : String
  status : String
  uploadedAt : Nat
  userId : Option String
deriving DecidableEq, Repr

/-- A document of the `Mappings` collection, with the exact fields inserted at
methods.js lines 186-191. -/
structure MappingTemplate where
  _id : String
  shopId : String
  name : Option String
  collection : Option String
  mapping : Option MappingData
deriving DecidableEq, Repr

/-- The persistent state touched by the two methods: the `JobItems` and
`Mappings` collections plus the id-generation counter of the store. -/
structure DB where
  jobItems : List JobItem
  mappings : List MappingTemplate
  nextId : Nat
deriving DecidableEq, Repr

/-- The call context: the current shop (tenant) id from `Reaction.getShopId`,
the current user id from `Meteor.userId()` (`none` when no user is logged in),
and the current time for `new Date()`. -/
structure Ctx where
  shopId : Option String
  userId : Option String
  now : Nat
deriving DecidableEq, Repr

/-- The errors the embedded methods can raise.  `checkError` is a failed
`check(...)` match, `typeError` is a JavaScript TypeError (here: destructuring
a property out of `undefined`), `meteorError e r` is `new Meteor.Error(e, r)`,
and `shopUnavailable` is the failure of `Reaction.getShopId` when no shop
context exists. -/
inductive JsError where
  | checkError
  | typeError
  | meteorError (error : String) (reason : String)
  | shopUnavailable
deriving DecidableEq, Repr

/-- Fresh Mongo-style id generation: the id produced for counter value `n`.
Distinct counters give distinct ids (they differ in length). -/
def genId (n : Nat) : String := String.mk (List.replicate n 'i')

/-- JavaScript truthiness of an optional boolean field: `undefined` is falsy. -/
def truthy : Option Bool → Bool
  | some b => b
  | none => false

/-- `JobItems.findOne({ _id: jobItemId })`. -/
def findJobItem (l : List JobItem) (i : String) : Option JobItem :=
  l.find? fun j => decide (j._id = i)

/-- `Mappings.findOne({ _id: mappingId })` (used in theorems to observe the
`Mappings` collection, keyed the way the source keys it). -/
def findMappingTemplate (l : List MappingTemplate) (i : String) : Option MappingTemplate :=
  l.find? fun t => decide (t._id = i)

/-- `Mappings.update({ _id: mappingId }, { $set: { mapping: m } })`: rewrite
the `mapping` field of the first document whose `_id` equals `mappingId`
(`mappingId` may be `undefined`, in which case nothing matches because every
stored document has a string `_id`). -/
def updateMappingDocs : List MappingTemplate → Option String → Option MappingData → List MappingTemplate
  | [], _, _ => []
  | t :: ts, mid, m =>
    if some t._id = mid then { t with mapping := m } :: ts
    else t :: updateMappingDocs ts mid m

/-- Modelled from the spec: `Reaction.getShopId` is repository code that lives
outside `src/` (imports/plugins/core/core/server/Reaction); the spec says the
tenant context "must be available or the operation fails", so the lookup
fails when no shop id is in scope. -/
def getShopId (c : Ctx) : Except JsError String :=
  match c.shopId with
  | some s => Except.ok s
  | none => Except.error JsError.shopUnavailable

/-- The `JobItems` document inserted by `csvConnector/saveJobItem`
(methods.js lines 170-183), given shop id `s`. -/
def newJobItem (c : Ctx) (db : DB) (v : JobValues) (s : String) : JobItem :=
  { _id := genId db.nextId
    collection := v.collection
    fileSource := v.fileSource
    hasHeader := v.hasHeader
    jobSubType := v.jobSubType
    jobType := v.jobType
    mapping := v.mappingByUser
    mappingId := v.mappingId
    name := v.name
    shopId := s
    status := "pending"
    uploadedAt := c.now
    userId := c.userId }

/-- The `Mappings` document inserted by `csvConnector/saveJobItem`
(methods.js lines 186-191); its `_id` is generated after the job item's,
hence the `db.nextId + 1` counter value. -/
def newMappingTemplate (db : DB) (v : JobValues) (s : String) : MappingTemplate :=
  { _id := genId (db.nextId + 1)
    shopId := s
    name := v.newMappingName
    collection := v.collection
    mapping := v.mappingByUser }

/-- The condition of methods.js line 185 deciding whether a new mapping
template is inserted:
`(mappingId === "create" && shouldSaveToNewMapping) ||`
`(mappingId !== "create" && saveMappingAction === "create")`. -/
def mappingInsertCond (v : JobValues) : Prop :=
  (v.mappingId = some "create" ∧ truthy v.shouldSaveToNewMapping = true)
  ∨ (v.mappingId ≠ some "create" ∧ v.saveMappingAction = some "create")

instance (v : JobValues) : Decidable (mappingInsertCond v) :=
  inferInstanceAs (Decidable (_ ∨ _))

/-- The condition of methods.js line 192 deciding whether an existing mapping
template is updated:
`mappingId !== "create" && saveMappingAction === "update"`. -/
def mappingUpdateCond (v : JobValues) : Prop :=
  v.mappingId ≠ some "create" ∧ v.saveMappingAction = some "update"

instance (v : JobValues) : Decidable (mappingUpdateCond v) :=
  inferInstanceAs (Decidable (_ ∧ _))

/-- `csvConnector/saveJobItem` (methods.js lines 153-197).  Returns the final
database state together with the method's result: the new job item id on
success, or the raised error.  Errors are raised before any write, so the
state component equals the input state on every error path. -/
def saveJobItem (c : Ctx) (db : DB) (arg : JSArg) : DB × Except JsError String :=
  match arg with
  | JSArg.nonObject => (db, Except.error JsError.checkError)
  | JSArg.obj v =>
    match getShopId c with
    | Except.error e => (db, Except.error e)
    | Except.ok s =>
      let job := newJobItem c db v s
      let db1 : DB := { db with jobItems := db.jobItems ++ [job], nextId := db.nextId + 1 }
      let db2 : DB :=
        if mappingInsertCond v then
          { db1 with
            mappings := db1.mappings ++ [newMappingTemplate db v s]
            nextId := db1.nextId + 1 }
        else if mappingUpdateCond v then
          { db1 with mappings := updateMappingDocs db1.mappings v.mappingId v.mappingByUser }
        else db1
      (db2, Except.ok job._id)

/-- The apostrophe character, spelled by code point. -/
def apos : Char := Char.ofNat 39

/-- The reason string of the conflict error thrown at methods.js line 211. -/
def conflictReason : String :=
  "Job item is in progress and can" ++ String.mk [apos] ++ "t be deleted."

/-- `csvConnector/removeJobItem` (methods.js lines 206-218).  The source runs
`const jobItem = JobItems.findOne({ _id: jobItemId }); const { status } = jobItem;`
with no existence check: when `findOne` returns `undefined` the destructuring
raises a TypeError. -/
def removeJobItem (db : DB) (jobItemId : String) : DB × Except JsError Bool :=
  match findJobItem db.jobItems jobItemId with
  | none => (db, Except.error JsError.typeError)
  | some jobItem =>
    if jobItem.status = "inProgress" then
      (db, Except.error (JsError.meteorError "invalid" conflictReason))
    else
      ({ db with jobItems := db.jobItems.filter fun j => decide (j._id ≠ jobItemId) },
       Except.ok true)

/-- Well-formedness of a database state: every stored id was produced by
`genId` at a counter value below the current one, as holds in every state
reachable from an empty store through the embedded operations. -/
def wf (db : DB) : Prop :=
  (∀ j ∈ db.jobItems, ∃ k, k < db.nextId ∧ j._id = genId k)
  ∧ (∀ t ∈ db.mappings, ∃ k, k < db.nextId ∧ t._id = genId k)

theorem genId_length (n : Nat) : (genId n).length = n := by
  simp [genId, String.length]

theorem genId_ne {a b : Nat} (h : a ≠ b) : genId a ≠ genId b := by
  intro hEq
  exact h (by rw [← genId_length a, ← genId_length b, hEq])

theorem findMappingTemplate_append_of_some {l l₂ : List MappingTemplate} {i : String}
    {t : MappingTemplate} (h : findMappingTemplate l i = some t) :
    findMappingTemplate (l ++ l₂) i = some t := by
  simp [findMappingTemplate] at h ⊢
  exact Or.inl h

theorem updateMappingDocs_length (l : List MappingTemplate) (mid : Option String)
    (m : Option MappingData) : (updateMappingDocs l mid m).length = l.length := by
  induction l with
  | nil => rfl
  | cons t ts ih =>
    by_cases h : some t._id = mid <;> simp [updateMappingDocs, h, ih]

theorem findMappingTemplate_updateMappingDocs {l : List MappingTemplate} {i : String}
    {t : MappingTemplate} (m : Option MappingData)
    (h : findMappingTemplate l i = some t) :
    findMappingTemplate (updateMappingDocs l (some i) m) i
      = some { t with mapping := m } := by
  induction l with
  | nil => simp [findMappingTemplate] at h
  | cons a ts ih =>
    by_cases ha : a._id = i
    · have ht : a = t := by simpa [findMappingTemplate, ha] using h
      subst ht
      simp [findMappingTemplate, updateMappingDocs, ha]
    · have h' : findMappingTemplate ts i = some t := by
        simpa [findMappingTemplate, ha] using h
      have hcond : ¬ (some a._id = some i) := by simpa using ha
      simpa [findMappingTemplate, updateMappingDocs, hcond, ha] using ih h'

theorem findJobItem_filter_eq_none (l : List JobItem) (i : String) :
    findJobItem (l.filter fun j => !decide (j._id = i)) i = none := by
  simp [findJobItem, List.find?_eq_none, List.mem_filter]

/-- A sample stored job item, used by the concrete evaluations below. -/
def jobA : JobItem :=
  { _id := genId 0
    collection := some "products"
    fileSource := some "upload"
    hasHeader := some true
    jobSubType := some "csv"
    jobType := some "import"
    mapping := some [("sku", "SKU")]
    mappingId := some "create"
    name := some "job A"
    shopId := "shop1"
    status := "pending"
    uploadedAt := 0
    userId := some "user1" }

/-- A store holding exactly `jobA` and no mapping templates. -/
def dbA : DB := { jobItems := [jobA], mappings := [], nextId := 1 }

/-- The empty store. -/
def db0 : DB := { jobItems := [], mappings := [], nextId := 0 }

/-- A call context with both shop and user available. -/
def ctxA : Ctx := { shopId := some "shop1", userId := some "user1", now := 5 }

/-- A submission object that carries none of its fields: every destructured
field of `values` is `undefined`. -/
def vNone : JobValues :=
  { collection := none
    fileSource := none
    hasHeader := none
    jobSubType := none
    jobType := none
    mappingByUser := none
    mappingId := none
    name := none
    newMappingName := none
    saveMappingAction := none
    shouldSaveToNewMapping := none }

/-- C1: the claim says `remove` on a nonexistent id fails with a
distinguishable NotFoundError and deletes nothing.  The code has no
not-found branch: `JobItems.findOne` returns `undefined` and
`const { status } = jobItem` raises an unclassified TypeError.  This theorem
evaluates the embedded method at the failing input: `dbA` stores only `jobA`,
the id "missing" identifies nothing, and the call raises `typeError` (not a
Meteor not-found error) while leaving the store unchanged. -/
theorem c1_remove_nonexistent_raises_typeError :
    removeJobItem dbA "missing" = (dbA, Except.error JsError.typeError) := by
  rfl

/-- C2 counterexample: the claim says a submission missing a required field
fails with a validation error before any persistence.  Here every field of
`values` is missing, yet the call succeeds, returns a fresh job item id, and
inserts the job item — persistence happens and no validation error is
raised. -/
theorem c2_counterexample_missing_fields_accepted :
    (saveJobItem ctxA db0 (JSArg.obj vNone)).2 = Except.ok (genId 0)
    ∧ (saveJobItem ctxA db0 (JSArg.obj vNone)).1.jobItems
        = [newJobItem ctxA db0 vNone "shop1"] := by
  exact ⟨rfl, rfl⟩

/-- C2 (amended): the only validation `csvConnector/saveJobItem` performs is
`check(values, Object)`; when the argument is not an object the method fails
with a check (validation) error before any JobItem insertion or
MappingTemplate write — the store is returned unchanged.  Individual fields
are not validated (see the counterexample). -/
theorem c2_nonobject_rejected_before_persistence (c : Ctx) (db : DB) :
    saveJobItem c db JSArg.nonObject = (db, Except.error JsError.checkError) := by
  rfl

/-- C9: `csvConnector/removeJobItem` never touches the `Mappings` collection:
whether it succeeds or fails, the mapping templates afterwards are exactly
the mapping templates before. -/
theorem c9_remove_preserves_mappings (db : DB) (jobItemId : String) :
    (removeJobItem db jobItemId).1.mappings = db.mappings := by
  unfold removeJobItem
  cases h : findJobItem db.jobItems jobItemId with
  | none => rfl
  | some j =>
    by_cases hst : j.status = "inProgress" <;> simp [hst]

/-- C6: for a stored job item `j`, `removeJobItem` fails with the conflict
error `Meteor.Error("invalid", "Job item is in progress and can't be
deleted.")` and leaves `j` in place exactly when `j.status = "inProgress"`;
for every other status the call succeeds (returns `true`) and no job item
with `j`'s id remains. -/
theorem c6_remove_gated_by_status (db : DB) (j : JobItem)
    (hj : findJobItem db.jobItems j._id = some j) :
    (j.status = "inProgress" →
       removeJobItem db j._id
         = (db, Except.error (JsError.meteorError "invalid" conflictReason))
       ∧ findJobItem (removeJobItem db j._id).1.jobItems j._id = some j)
    ∧ (j.status ≠ "inProgress" →
       (removeJobItem db j._id).2 = Except.ok true
       ∧ findJobItem (removeJobItem db j._id).1.jobItems j._id = none) := by
  constructor
  · intro hst
    have hr : removeJobItem db j._id
        = (db, Except.error (JsError.meteorError "invalid" conflictReason)) := by
      unfold removeJobItem
      rw [hj]
      simp [hst]
    exact ⟨hr, by rw [hr]; exact hj⟩
  · intro hst
    unfold removeJobItem
    rw [hj]
    simp [hst, findJobItem_filter_eq_none]

/-- A stored job item with status `"inProgress"`. -/
def jobB : JobItem := { jobA with _id := genId 1, status := "inProgress" }

/-- A store holding `jobA` (pending) and `jobB` (in progress). -/
def dbB : DB := { jobItems := [jobA, jobB], mappings := [], nextId := 2 }

/-- C6 witness: the status gate evaluated at the concrete store `dbB` and the
in-progress job `jobB`. -/
theorem c6_remove_gated_by_status_witness :
    (jobB.status = "inProgress" →
       removeJobItem dbB jobB._id
         = (dbB, Except.error (JsError.meteorError "invalid" conflictReason))
       ∧ findJobItem (removeJobItem dbB jobB._id).1.jobItems jobB._id = some jobB)
    ∧ (jobB.status ≠ "inProgress" →
       (removeJobItem dbB jobB._id).2 = Except.ok true
       ∧ findJobItem (removeJobItem dbB jobB._id).1.jobItems jobB._id = none) :=
  c6_remove_gated_by_status dbB jobB (by rfl)

/-- C7: every successful submission (the argument is an object and the shop
context resolves to `s`) appends exactly one new job item to the `JobItems`
collection; that item has status "pending", `uploadedAt` the current time,
`userId` the current user, `shopId` the current shop, and `mapping` the
user-supplied mapping taken as-is; the method returns the item's freshly
assigned id. -/
theorem c7_submit_inserts_pending_job (c : Ctx) (db : DB) (v : JobValues) (s : String)
    (hs : c.shopId = some s) :
    (saveJobItem c db (JSArg.obj v)).1.jobItems = db.jobItems ++ [newJobItem c db v s]
    ∧ (newJobItem c db v s).status = "pending"
    ∧ (newJobItem c db v s).uploadedAt = c.now
    ∧ (newJobItem c db v s).userId = c.userId
    ∧ (newJobItem c db v s).shopId = s
    ∧ (newJobItem c db v s).mapping = v.mappingByUser
    ∧ (saveJobItem c db (JSArg.obj v)).2 = Except.ok (newJobItem c db v s)._id := by
  refine ⟨?_, rfl, rfl, rfl, rfl, rfl, ?_⟩ <;>
  · by_cases h1 : mappingInsertCond v <;>
      by_cases h2 : mappingUpdateCond v <;>
        simp [saveJobItem, getShopId, hs, h1, h2]

/-- C7 witness: the insertion property evaluated at the concrete context
`ctxA`, the empty store and the all-default submission `vNone`. -/
theorem c7_submit_inserts_pending_job_witness :
    (saveJobItem ctxA db0 (JSArg.obj vNone)).1.jobItems
        = db0.jobItems ++ [newJobItem ctxA db0 vNone "shop1"]
    ∧ (newJobItem ctxA db0 vNone "shop1").status = "pending"
    ∧ (newJobItem ctxA db0 vNone "shop1").uploadedAt = ctxA.now
    ∧ (newJobItem ctxA db0 vNone "shop1").userId = ctxA.userId
    ∧ (newJobItem ctxA db0 vNone "shop1").shopId = "shop1"
    ∧ (newJobItem ctxA db0 vNone "shop1").mapping = vNone.mappingByUser
    ∧ (saveJobItem ctxA db0 (JSArg.obj vNone)).2
        = Except.ok (newJobItem ctxA db0 vNone "shop1")._id :=
  c7_submit_inserts_pending_job ctxA db0 vNone "shop1" (by rfl)

/-- C5: a submission with the sentinel `mappingId = "create"` and
`shouldSaveToNewMapping` false or absent leaves the `Mappings` collection
unchanged, while the job item insertion still happens and the created job's
`mapping` field is exactly the input mapping. -/
theorem c5_sentinel_without_save_changes_no_mappings (c : Ctx) (db : DB)
    (v : JobValues) (s : String) (hs : c.shopId = some s)
    (hm : v.mappingId = some "create")
    (hss : truthy v.shouldSaveToNewMapping = false) :
    (saveJobItem c db (JSArg.obj v)).1.mappings = db.mappings
    ∧ (saveJobItem c db (JSArg.obj v)).1.jobItems
        = db.jobItems ++ [newJobItem c db v s]
    ∧ (newJobItem c db v s).mapping = v.mappingByUser := by
  have h1 : ¬ mappingInsertCond v := by
    rintro (⟨-, hb⟩ | ⟨hne, -⟩)
    · rw [hss] at hb
      exact Bool.false_ne_true hb
    · exact hne hm
  have h2 : ¬ mappingUpdateCond v := fun hc => hc.1 hm
  refine ⟨?_, ?_, rfl⟩ <;> simp [saveJobItem, getShopId, hs, h1, h2]

/-- A submission selecting the sentinel mapping id and declining to save. -/
def vC5 : JobValues :=
  { vNone with
    collection := some "products"
    mappingByUser := some [("sku", "SKU")]
    mappingId := some "create"
    shouldSaveToNewMapping := some false }

/-- C5 witness: the no-mapping-write property evaluated at the concrete
context `ctxA`, the empty store and the submission `vC5`. -/
theorem c5_sentinel_without_save_changes_no_mappings_witness :
    (saveJobItem ctxA db0 (JSArg.obj vC5)).1.mappings = db0.mappings
    ∧ (saveJobItem ctxA db0 (JSArg.obj vC5)).1.jobItems
        = db0.jobItems ++ [newJobItem ctxA db0 vC5 "shop1"]
    ∧ (newJobItem ctxA db0 vC5 "shop1").mapping = vC5.mappingByUser :=
  c5_sentinel_without_save_changes_no_mappings ctxA db0 vC5 "shop1"
    (by rfl) (by rfl) (by rfl)

/-- C10: with the sentinel `mappingId = "create"`, the `saveMappingAction`
field is ignored entirely — the whole call result is the same for every value
of `saveMappingAction` — and when `shouldSaveToNewMapping` is false or absent
no mapping template is inserted or updated, whatever `saveMappingAction`
says. -/
theorem c10_sentinel_ignores_saveMappingAction (c : Ctx) (db : DB) (v : JobValues)
    (hm : v.mappingId = some "create") :
    (∀ a : Option String,
       saveJobItem c db (JSArg.obj { v with saveMappingAction := a })
         = saveJobItem c db (JSArg.obj { v with saveMappingAction := none }))
    ∧ (truthy v.shouldSaveToNewMapping = false →
       ∀ a : Option String,
         (saveJobItem c db (JSArg.obj { v with saveMappingAction := a })).1.mappings
           = db.mappings) := by
  have hi : ∀ a : Option String,
      mappingInsertCond { v with saveMappingAction := a }
        ↔ truthy v.shouldSaveToNewMapping = true := by
    intro a
    simp [mappingInsertCond, hm]
  have hu : ∀ a : Option String,
      ¬ mappingUpdateCond { v with saveMappingAction := a } := by
    intro a hc
    exact hc.1 hm
  cases hc : c.shopId with
  | none =>
    refine ⟨fun a => ?_, fun _ a => ?_⟩ <;> simp [saveJobItem, getShopId, hc]
  | some s =>
    constructor
    · intro a
      by_cases ht : truthy v.shouldSaveToNewMapping = true
      · simp [saveJobItem, getShopId, hc, (hi a).mpr ht, (hi none).mpr ht,
          newJobItem, newMappingTemplate]
      · have hna : ¬ mappingInsertCond { v with saveMappingAction := a } :=
          fun h => ht ((hi a).mp h)
        have hnn : ¬ mappingInsertCond { v with saveMappingAction := none } :=
          fun h => ht ((hi none).mp h)
        simp [saveJobItem, getShopId, hc, hna, hnn, hu, newJobItem]
    · intro ht a
      have hnc : ¬ mappingInsertCond { v with saveMappingAction := a } := by
        intro h
        rw [(hi a).mp h] at ht
        simp at ht
      simp [saveJobItem, getShopId, hc, hnc, hu]

/-- C10 witness: the sentinel-ignores-action property at `ctxA`, the empty
store and the concrete submission `vC5` (whose `mappingId` is "create"). -/
theorem c10_sentinel_ignores_saveMappingAction_witness :
    (∀ a : Option String,
       saveJobItem ctxA db0 (JSArg.obj { vC5 with saveMappingAction := a })
         = saveJobItem ctxA db0 (JSArg.obj { vC5 with saveMappingAction := none }))
    ∧ (truthy vC5.shouldSaveToNewMapping = false →
       ∀ a : Option String,
         (saveJobItem ctxA db0 (JSArg.obj { vC5 with saveMappingAction := a })).1.mappings
           = db0.mappings) :=
  c10_sentinel_ignores_saveMappingAction ctxA db0 vC5 (by rfl)

/-- C4: a submission selecting an existing mapping id (not the sentinel) with
`saveMappingAction = "update"` rewrites the `mapping` field of the template
stored at that id in place — same identifier, no template inserted (the
`Mappings` collection keeps its length). -/
theorem c4_update_rewrites_template_in_place (c : Ctx) (db : DB) (v : JobValues)
    (s : String) (mid : String) (t : MappingTemplate)
    (hs : c.shopId = some s) (hmid : v.mappingId = some mid) (hne : mid ≠ "create")
    (ha : v.saveMappingAction = some "update")
    (ht : findMappingTemplate db.mappings mid = some t) :
    (saveJobItem c db (JSArg.obj v)).1.mappings.length = db.mappings.length
    ∧ findMappingTemplate (saveJobItem c db (JSArg.obj v)).1.mappings mid
        = some { t with mapping := v.mappingByUser }
    ∧ ({ t with mapping := v.mappingByUser })._id = t._id := by
  have h1 : ¬ mappingInsertCond v := by
    rintro (⟨hc, -⟩ | ⟨-, hc⟩)
    · rw [hmid] at hc
      exact hne (Option.some.inj hc)
    · rw [ha] at hc
      exact absurd (Option.some.inj hc) (by decide)
  have h2 : mappingUpdateCond v := by
    refine ⟨?_, ha⟩
    rw [hmid]
    intro hc
    exact hne (Option.some.inj hc)
  refine ⟨?_, ?_, rfl⟩
  · simp [saveJobItem, getShopId, hs, h1, h2, updateMappingDocs_length]
  · simp [saveJobItem, getShopId, hs, h1, h2, hmid]
    exact findMappingTemplate_updateMappingDocs v.mappingByUser ht

/-- A stored mapping template used by the update witness. -/
def tmplA : MappingTemplate :=
  { _id := genId 0
    shopId := "shop1"
    name := some "existing mapping"
    collection := some "products"
    mapping := some [("sku", "SKU")] }

/-- A store holding exactly `tmplA`. -/
def dbM : DB := { jobItems := [], mappings := [tmplA], nextId := 1 }

/-- A submission selecting `tmplA` for an in-place update. -/
def vC4 : JobValues :=
  { vNone with
    collection := some "products"
    mappingByUser := some [("sku", "SKU2")]
    mappingId := some (genId 0)
    saveMappingAction := some "update" }

/-- C4 witness: the in-place update evaluated at `ctxA`, the store `dbM` and
the submission `vC4`. -/
theorem c4_update_rewrites_template_in_place_witness :
    (saveJobItem ctxA dbM (JSArg.obj vC4)).1.mappings.length = dbM.mappings.length
    ∧ findMappingTemplate (saveJobItem ctxA dbM (JSArg.obj vC4)).1.mappings (genId 0)
        = some { tmplA with mapping := vC4.mappingByUser }
    ∧ ({ tmplA with mapping := vC4.mappingByUser })._id = tmplA._id :=
  c4_update_rewrites_template_in_place ctxA dbM vC4 "shop1" (genId 0) tmplA
    (by rfl) (by rfl) (by decide) (by rfl) (by rfl)

/-- C3: exactly one new mapping template — with `name = newMappingName`, the
job's `collection` target and the supplied mapping — is appended to the
`Mappings` collection precisely when the condition of methods.js line 185
holds: the sentinel id together with `shouldSaveToNewMapping`, or a
non-sentinel id together with `saveMappingAction = "create"`.  In the latter
case, for any existing template found at the selected `mappingId`, the new
template's id is distinct from `mappingId` and the template stored at
`mappingId` is unmodified.  When the condition fails, the collection's size
is unchanged (nothing is inserted). -/
theorem c3_mapping_insert_characterised (c : Ctx) (db : DB) (v : JobValues)
    (s : String) (mid : String) (hs : c.shopId = some s)
    (hmid : v.mappingId = some mid) (hwf : wf db) :
    ((mid = "create" ∧ truthy v.shouldSaveToNewMapping = true)
       ∨ (mid ≠ "create" ∧ v.saveMappingAction = some "create") →
       (saveJobItem c db (JSArg.obj v)).1.mappings
         = db.mappings ++ [newMappingTemplate db v s]
       ∧ (newMappingTemplate db v s).name = v.newMappingName
       ∧ (newMappingTemplate db v s).collection = v.collection
       ∧ (newMappingTemplate db v s).mapping = v.mappingByUser
       ∧ ∀ t, findMappingTemplate db.mappings mid = some t →
           (newMappingTemplate db v s)._id ≠ mid
           ∧ findMappingTemplate (saveJobItem c db (JSArg.obj v)).1.mappings mid
               = some t)
    ∧ (¬ ((mid = "create" ∧ truthy v.shouldSaveToNewMapping = true)
       ∨ (mid ≠ "create" ∧ v.saveMappingAction = some "create")) →
       (saveJobItem c db (JSArg.obj v)).1.mappings.length = db.mappings.length) := by
  have hiff : ((mid = "create" ∧ truthy v.shouldSaveToNewMapping = true)
       ∨ (mid ≠ "create" ∧ v.saveMappingAction = some "create"))
      ↔ mappingInsertCond v := by
    simp [mappingInsertCond, hmid]
  constructor
  · intro hc
    have hcond := hiff.mp hc
    have hm : (saveJobItem c db (JSArg.obj v)).1.mappings
        = db.mappings ++ [newMappingTemplate db v s] := by
      simp [saveJobItem, getShopId, hs, hcond]
    refine ⟨hm, rfl, rfl, rfl, ?_⟩
    intro t ht
    have hmem : t ∈ db.mappings := List.mem_of_find?_eq_some ht
    have hid : t._id = mid := by
      have := List.find?_some ht
      simpa using this
    obtain ⟨k, hk, hkid⟩ := hwf.2 t hmem
    constructor
    · show genId (db.nextId + 1) ≠ mid
      rw [← hid, hkid]
      exact genId_ne (by omega)
    · rw [hm]
      exact findMappingTemplate_append_of_some ht
  · intro hc
    have hcond : ¬ mappingInsertCond v := fun h => hc (hiff.mpr h)
    by_cases h2 : mappingUpdateCond v <;>
      simp [saveJobItem, getShopId, hs, hcond, h2, updateMappingDocs_length]

/-- A store holding the template `tmplA` and nothing else, well-formed by
construction. -/
theorem wf_dbM : wf dbM := by
  constructor
  · intro j hj
    simp [dbM] at hj
  · intro t htm
    simp [dbM] at htm
    exact ⟨0, by simp [dbM], by rw [htm]; rfl⟩

/-- A submission selecting the existing template `tmplA` but asking to save
the supplied mapping as a new template. -/
def vC3 : JobValues :=
  { vNone with
    collection := some "products"
    mappingByUser := some [("sku", "SKU2")]
    mappingId := some (genId 0)
    newMappingName := some "my new mapping"
    saveMappingAction := some "create" }

/-- C3 witness: the insertion characterisation evaluated at `ctxA`, the store
`dbM` and the save-as-new submission `vC3`. -/
theorem c3_mapping_insert_characterised_witness :
    ((genId 0 = "create" ∧ truthy vC3.shouldSaveToNewMapping = true)
       ∨ (genId 0 ≠ "create" ∧ vC3.saveMappingAction = some "create") →
       (saveJobItem ctxA dbM (JSArg.obj vC3)).1.mappings
         = dbM.mappings ++ [newMappingTemplate dbM vC3 "shop1"]
       ∧ (newMappingTemplate dbM vC3 "shop1").name = vC3.newMappingName
       ∧ (newMappingTemplate dbM vC3 "shop1").collection = vC3.collection
       ∧ (newMappingTemplate dbM vC3 "shop1").mapping = vC3.mappingByUser
       ∧ ∀ t, findMappingTemplate dbM.mappings (genId 0) = some t →
           (newMappingTemplate dbM vC3 "shop1")._id ≠ genId 0
           ∧ findMappingTemplate
               (saveJobItem ctxA dbM (JSArg.obj vC3)).1.mappings (genId 0)
               = some t)
    ∧ (¬ ((genId 0 = "create" ∧ truthy vC3.shouldSaveToNewMapping = true)
       ∨ (genId 0 ≠ "create" ∧ vC3.saveMappingAction = some "create")) →
       (saveJobItem ctxA dbM (JSArg.obj vC3)).1.mappings.length
         = dbM.mappings.length) :=
  c3_mapping_insert_characterised ctxA dbM vC3 "shop1" (genId 0) (by rfl) (by rfl)
    wf_dbM

/-- C8 counterexample: the claim says submission fails whenever the current
user identifier is unavailable.  With a shop in scope but no logged-in user
(`Meteor.userId()` is `null`), the call completes: it returns a fresh job
item id and inserts the job item with its `userId` field empty. -/
theorem c8_counterexample_missing_user_still_inserts :
    (saveJobItem { shopId := some "shop1", userId := none, now := 7 } db0
        (JSArg.obj vNone)).2 = Except.ok (genId 0)
    ∧ (saveJobItem { shopId := some "shop1", userId := none, now := 7 } db0
        (JSArg.obj vNone)).1.jobItems.length = 1
    ∧ ((saveJobItem { shopId := some "shop1", userId := none, now := 7 } db0
        (JSArg.obj vNone)).1.jobItems.map JobItem.userId) = [none] := by
  exact ⟨rfl, rfl, rfl⟩

/-- C8 (amended): when the shop (tenant) context is unavailable the submission
fails before any insertion, with the store unchanged; when the shop resolves
but no user is logged in, the submission nevertheless completes, inserting
the job item with an empty `userId`. -/
theorem c8_context_gate (c : Ctx) (db : DB) (v : JobValues) :
    (c.shopId = none →
       saveJobItem c db (JSArg.obj v) = (db, Except.error JsError.shopUnavailable))
    ∧ (∀ s, c.shopId = some s → c.userId = none →
       (saveJobItem c db (JSArg.obj v)).1.jobItems
           = db.jobItems ++ [newJobItem c db v s]
       ∧ (newJobItem c db v s).userId = none
       ∧ (saveJobItem c db (JSArg.obj v)).2
           = Except.ok (newJobItem c db v s)._id) := by
  constructor
  · intro hnone
    simp [saveJobItem, getShopId, hnone]
  · intro s hs hu
    refine ⟨?_, ?_, ?_⟩
    · by_cases h1 : mappingInsertCond v <;>
        by_cases h2 : mappingUpdateCond v <;>
          simp [saveJobItem, getShopId, hs, h1, h2]
    · simp [newJobItem, hu]
    · by_cases h1 : mappingInsertCond v <;>
        by_cases h2 : mappingUpdateCond v <;>
          simp [saveJobItem, getShopId, hs, h1, h2]

/-- A context whose shop is unavailable. -/
def ctxNoShop : Ctx := { shopId := none, userId := some "user1", now := 9 }

/-- C8 witness: the context gate evaluated at the concrete context with no
shop in scope, the empty store and the submission `vNone`. -/
theorem c8_context_gate_witness :
    (ctxNoShop.shopId = none →
       saveJobItem ctxNoShop db0 (JSArg.obj vNone)
         = (db0, Except.error JsError.shopUnavailable))
    ∧ (∀ s, ctxNoShop.shopId = some s → ctxNoShop.userId = none →
       (saveJobItem ctxNoShop db0 (JSArg.obj vNone)).1.jobItems
           = db0.jobItems ++ [newJobItem ctxNoShop db0 vNone s]
       ∧ (newJobItem ctxNoShop db0 vNone s).userId = none
       ∧ (saveJobItem ctxNoShop db0 (JSArg.obj vNone)).2
           = Except.ok (newJobItem ctxNoShop db0 vNone s)._id) :=
  c8_context_gate ctxNoShop db0 vNone

end CsvConnector
